import Mathlib

/-!
Shallow embedding of the reconciliation core of the
serverless-create-global-dynamodb-table plugin (source: index.js):

* `checkStackCreateUpdateStatus` — the stack-status polling loop, embedded
  over a finite script of successive `describeStacks` status strings; a
  script whose statuses never reach the terminal enumeration yields `none`
  (the JS loop would not terminate within that many queries).
* `getRegionsToCreateGlobalTablesIn` — the region-diff resolver, embedded
  over a provider client whose two describe calls return either a response
  or an error carrying the AWS error `code` string.
* `createGlobalTable` — its caller, embedded as the sequence of provider
  calls it issues after the resolver returns.
* `createGlobalDynamodbTable` — the top-level entry point with its
  catch-all error handler.
-/

/-- The `STACKCOMPLETESTATUSES` constant of the source: the terminal
cloudformation stack statuses, in source order. -/
def STACKCOMPLETESTATUSES : List String :=
  ["CREATE_COMPLETE",
   "ROLLBACK_FAILED",
   "ROLLBACK_COMPLETE",
   "UPDATE_COMPLETE",
   "UPDATE_ROLLBACK_FAILED",
   "UPDATE_ROLLBACK_COMPLETE"]

/-- `charsHavePre pre s` is true when `pre` is a prefix of the character
list `s`. Auxiliary for the JS `String.prototype.includes` model. -/
def charsHavePre : List Char → List Char → Bool
  | [], _ => true
  | _ :: _, [] => false
  | a :: as, b :: bs => a == b && charsHavePre as bs

/-- `charsContain sub s` is true when `sub` occurs contiguously in `s`. -/
def charsContain (sub : List Char) : List Char → Bool
  | [] => charsHavePre sub []
  | c :: rest => charsHavePre sub (c :: rest) || charsContain sub rest

/-- Model of JS `s.includes(sub)`: substring containment. -/
def jsIncludes (s sub : String) : Bool :=
  charsContain sub.toList s.toList

/-- The loop guard of `checkStackCreateUpdateStatus`:
`STACKCOMPLETESTATUSES.includes(status)`. -/
def isStackComplete (s : String) : Bool :=
  STACKCOMPLETESTATUSES.contains s

/-- Outcome of one run of the polling loop: the returned boolean, the number
of `describeStacks` queries issued, and the number of `sleep(5000)` calls
performed before returning. -/
structure PollResult where
  success : Bool
  queries : Nat
  sleeps : Nat
deriving Repr, DecidableEq

/-- `checkStackCreateUpdateStatus` of the source, over the finite script of
statuses that successive `describeStacks` calls report. Each iteration
issues one query; on a terminal status the loop breaks and the function
returns `false` iff the status contains `"ROLLBACK"`, else `true`; on a
non-terminal status it sleeps and continues. `none` means the script was
exhausted without a terminal status: the JS loop performs every query and
sleep of the script and does not return within it. -/
def checkStackCreateUpdateStatus : List String → Option PollResult
  | [] => none
  | s :: rest =>
    if isStackComplete s then
      some ⟨!jsIncludes s "ROLLBACK", 1, 0⟩
    else
      match checkStackCreateUpdateStatus rest with
      | none => none
      | some r => some ⟨r.success, r.queries + 1, r.sleeps + 1⟩

/-- The success family of terminal statuses named by the specification. -/
def successStatuses : List String :=
  ["CREATE_COMPLETE", "UPDATE_COMPLETE"]

/-- The failure (rollback) family of terminal statuses named by the
specification. -/
def failureStatuses : List String :=
  ["ROLLBACK_COMPLETE", "ROLLBACK_FAILED",
   "UPDATE_ROLLBACK_COMPLETE", "UPDATE_ROLLBACK_FAILED"]

instance {ε α : Type} [DecidableEq ε] [DecidableEq α] :
    DecidableEq (Except ε α) := fun x y =>
  match x, y with
  | Except.ok a, Except.ok b =>
    if h : a = b then isTrue (by rw [h])
    else isFalse (by intro hc; cases hc; exact h rfl)
  | Except.ok _, Except.error _ => isFalse (by intro hc; cases hc)
  | Except.error _, Except.ok _ => isFalse (by intro hc; cases hc)
  | Except.error e, Except.error f =>
    if h : e = f then isTrue (by rw [h])
    else isFalse (by intro hc; cases hc; exact h rfl)

/-- An AWS SDK error as the source observes it: a `code` string (the only
field the source inspects) and a message. -/
structure AwsErr where
  code : String
  message : String
deriving Repr, DecidableEq

/-- Response of `dynamodb.describeTable`: `Table.Replicas` is either absent
(`none`, JS `undefined`) or the list of `RegionName`s of the replicas. -/
structure DescribeTableResp where
  replicas : Option (List String)
deriving Repr, DecidableEq

/-- Response of `dynamodb.describeGlobalTable`: the `RegionName`s of
`GlobalTableDescription.ReplicationGroup`. -/
structure DescribeGlobalTableResp where
  replicationGroup : List String
deriving Repr, DecidableEq

/-- The DynamoDB collaborator as the resolver uses it: each describe call,
keyed by table name, either returns a response or throws an error. -/
structure DynamoDBClient where
  describeTable : String → Except AwsErr DescribeTableResp
  describeGlobalTable : String → Except AwsErr DescribeGlobalTableResp

/-- The result object of the resolver:
`{ missingRegions, addingNewRegions }`. -/
structure RegionDiffResult where
  missingRegions : List String
  addingNewRegions : Bool
deriving Repr, DecidableEq

/-- The shared tail of both success branches of
`getRegionsToCreateGlobalTablesIn` (lines 203, 207, 210-214 of the source):
filter the candidate list down to the entries absent from the topology,
then return `{[], false}` when nothing is missing and
`{missingRegions, true}` otherwise. -/
def regionDiff (topology candidates : List String) : RegionDiffResult :=
  let missingRegions := candidates.filter (fun r => !topology.contains r)
  if missingRegions.length = 0 then ⟨[], false⟩
  else ⟨missingRegions, true⟩

/-- The `try` block of `getRegionsToCreateGlobalTablesIn` (lines 195-214
of the source). For `version = "v2"` the topology is `resp.Table.Replicas`
(`[]` when undefined, matching the `regionsGlobalTableExists = []`
initialization) and the candidates are `newRegions`; otherwise the
topology is the `ReplicationGroup` of `describeGlobalTable` and the
candidates are `[region].concat(newRegions)`. -/
def getRegionsAttempt (dynamodb : DynamoDBClient) (region : String)
    (newRegions : List String) (tableName : String) (version : String) :
    Except AwsErr RegionDiffResult :=
  if version = "v2" then
    match dynamodb.describeTable tableName with
    | Except.error e => Except.error e
    | Except.ok resp =>
      Except.ok (regionDiff
        (match resp.replicas with | some rs => rs | none => []) newRegions)
  else
    match dynamodb.describeGlobalTable tableName with
    | Except.error e => Except.error e
    | Except.ok resp =>
      Except.ok (regionDiff resp.replicationGroup ([region] ++ newRegions))

/-- `getRegionsToCreateGlobalTablesIn` of the source: the `try` block
above, with the `catch` of lines 215-221. A thrown error whose code is not
`GlobalTableNotFoundException` is rethrown; the not-found error is caught
and `{ missingRegions: newRegions, addingNewRegions: false }` returned. -/
def getRegionsToCreateGlobalTablesIn (dynamodb : DynamoDBClient)
    (region : String) (newRegions : List String) (tableName : String)
    (version : String) : Except AwsErr RegionDiffResult :=
  match getRegionsAttempt dynamodb region newRegions tableName version with
  | Except.ok r => Except.ok r
  | Except.error e =>
    if e.code ≠ "GlobalTableNotFoundException" then Except.error e
    else Except.ok ⟨newRegions, false⟩

/-- A provider call issued by `createGlobalTable` after the resolver has
returned (the calls of lines 249-321 of the source). -/
inductive ProviderCall where
  | describeTableCall (tableName : String)
  | listTagsOfResource
  | describeScalingPolicies
  | createTable (region : String)
  | waitForTableExists
  | updateTable (region : String)
  | createGlobalTableLinkage
  | updateGlobalTableLinkage
deriving Repr, DecidableEq

/-- The provider calls of `createGlobalTableV1`: one `createGlobalTable`
linkage call when not adding to an existing topology, else one
`updateGlobalTable` call. -/
def createGlobalTableV1 (addingNewRegions : Bool) : List ProviderCall :=
  if !addingNewRegions then [ProviderCall.createGlobalTableLinkage]
  else [ProviderCall.updateGlobalTableLinkage]

/-- The provider calls of `createGlobalTableV2`: per region to update, a
wait, an `updateTable` replica creation, and another wait. -/
def createGlobalTableV2 (regionsToUpdate : List String) : List ProviderCall :=
  regionsToUpdate.flatMap (fun r =>
    [ProviderCall.waitForTableExists, ProviderCall.updateTable r,
     ProviderCall.waitForTableExists])

/-- `createGlobalTable` of the source, embedded as the resolver result
together with the trace of provider calls issued after the resolver. When
`missingRegions` is empty the function logs and returns with no further
calls. Otherwise, when `createStack` is false and the version is not v2,
it describes the source table, lists its tags, describes its scaling
policies and creates the table in each missing region; finally it issues
the v2 or v1 linkage calls. Responses of the post-resolver calls do not
influence which calls occur, so the trace elides their outcomes; a
resolver error propagates. -/
def createGlobalTable (dynamodb : DynamoDBClient) (region : String)
    (tableName : String) (newRegions : List String) (version : String)
    (createStack : Bool) :
    Except AwsErr (RegionDiffResult × List ProviderCall) :=
  match getRegionsToCreateGlobalTablesIn dynamodb region newRegions tableName version with
  | Except.error e => Except.error e
  | Except.ok res =>
    if res.missingRegions.length = 0 then Except.ok (res, [])
    else
      let replicaCreation :=
        if !createStack && version ≠ "v2" then
          [ProviderCall.describeTableCall tableName,
           ProviderCall.listTagsOfResource,
           ProviderCall.describeScalingPolicies]
            ++ res.missingRegions.map ProviderCall.createTable
        else []
      let linkage :=
        if version = "v2" then createGlobalTableV2 res.missingRegions
        else createGlobalTableV1 res.addingNewRegions
      Except.ok (res, replicaCreation ++ linkage)

/-- The `custom.globalTables` options block read by the entry point.
`createStack` is optional in the config; the source compares it against
`false` with strict equality. -/
structure GlobalTablesOptions where
  enabled : Bool
  regions : List String
  version : String
  createStack : Option Bool
deriving Repr, DecidableEq

/-- The collaborators and configuration visible to
`createGlobalDynamodbTable`: the options block (`none` when the
configuration is missing or empty), the source region, the DynamoDB
client, the outcome of `getTableNamesFromStack`, and the outcome of
`createUpdateCfnStack` per target region. -/
structure ServerlessEnv where
  options : Option GlobalTablesOptions
  region : String
  dynamodb : DynamoDBClient
  tableNamesFromStack : Except AwsErr (List String)
  createUpdateCfnStack : String → Except AwsErr Unit

/-- Sequential `await` of `createGlobalTable` over each table name,
stopping at the first error, as in the source's `for` loops. -/
def runForTables (dynamodb : DynamoDBClient) (region : String)
    (tables : List String) (regions : List String) (version : String)
    (createStack : Bool) : Except AwsErr Unit :=
  match tables with
  | [] => Except.ok ()
  | t :: rest =>
    match createGlobalTable dynamodb region t regions version createStack with
    | Except.error e => Except.error e
    | Except.ok _ => runForTables dynamodb region rest regions version createStack

/-- Sequential `await` of `createUpdateCfnStack` over each target region,
stopping at the first error. -/
def runStackDeploys (deploy : String → Except AwsErr Unit) :
    List String → Except AwsErr Unit
  | [] => Except.ok ()
  | r :: rest =>
    match deploy r with
    | Except.error e => Except.error e
    | Except.ok _ => runStackDeploys deploy rest

/-- The body of the `try` block of `createGlobalDynamodbTable` (lines
394-473 of the source): skip when the options block is missing or
disabled; discover the stack's table names; skip when there are none; then
either run `createGlobalTable` per table directly (`createStack: false`)
or first deploy the stack in every target region and then run
`createGlobalTable` per table. -/
def createGlobalDynamodbTableBody (env : ServerlessEnv) : Except AwsErr Unit :=
  match env.options with
  | none => Except.ok ()
  | some opts =>
    if !opts.enabled then Except.ok ()
    else
      match env.tableNamesFromStack with
      | Except.error e => Except.error e
      | Except.ok tableNames =>
        if tableNames.length = 0 then Except.ok ()
        else if opts.createStack = some false then
          runForTables env.dynamodb env.region tableNames opts.regions
            opts.version false
        else
          match runStackDeploys env.createUpdateCfnStack opts.regions with
          | Except.error e => Except.error e
          | Except.ok _ =>
            runForTables env.dynamodb env.region tableNames opts.regions
              opts.version true

/-- `createGlobalDynamodbTable` of the source: the whole body runs inside
`try { ... } catch (error) { consoleLog(...) }`, so every error of the body
is swallowed into a logged normal completion. -/
def createGlobalDynamodbTable (env : ServerlessEnv) : Except AwsErr Unit :=
  match createGlobalDynamodbTableBody env with
  | Except.ok _ => Except.ok ()
  | Except.error _ => Except.ok ()

/-! ## Lemmas about the polling loop -/

lemma checkStack_first_terminal (pre : List String) (t : String)
    (rest : List String)
    (hpre : ∀ s, s ∈ pre → isStackComplete s = false)
    (ht : isStackComplete t = true) :
    checkStackCreateUpdateStatus (pre ++ t :: rest)
      = some ⟨!jsIncludes t "ROLLBACK", pre.length + 1, pre.length⟩ := by
  induction pre with
  | nil => simp [checkStackCreateUpdateStatus, ht]
  | cons s pre ih =>
    have hs : isStackComplete s = false := hpre s (List.mem_cons_self s pre)
    have hrec := ih (fun x hx => hpre x (List.mem_cons_of_mem s hx))
    simp [checkStackCreateUpdateStatus, hs, hrec]

lemma checkStack_no_terminal (l : List String)
    (hl : ∀ s, s ∈ l → isStackComplete s = false) :
    checkStackCreateUpdateStatus l = none := by
  induction l with
  | nil => rfl
  | cons s rest ih =>
    have hs : isStackComplete s = false := hl s (List.mem_cons_self s rest)
    have hrec := ih (fun x hx => hl x (List.mem_cons_of_mem s hx))
    simp [checkStackCreateUpdateStatus, hs, hrec]

/-- Claim C3: when the first terminal status of the script is in the
success family the poll returns `true`; when it is in the rollback family
the poll returns `false`. -/
theorem poll_first_terminal_classification (pre rest : List String)
    (t : String)
    (hpre : ∀ s, s ∈ pre → isStackComplete s = false) :
    (t ∈ successStatuses →
      (checkStackCreateUpdateStatus (pre ++ t :: rest)).map PollResult.success
        = some true)
    ∧ (t ∈ failureStatuses →
      (checkStackCreateUpdateStatus (pre ++ t :: rest)).map PollResult.success
        = some false) := by
  constructor
  · intro hmem
    have hmem2 : t = "CREATE_COMPLETE" ∨ t = "UPDATE_COMPLETE" := by
      simpa [successStatuses] using hmem
    rcases hmem2 with rfl | rfl <;>
      rw [checkStack_first_terminal pre _ rest hpre (by decide)] <;> rfl
  · intro hmem
    have hmem2 : t = "ROLLBACK_COMPLETE" ∨ t = "ROLLBACK_FAILED"
        ∨ t = "UPDATE_ROLLBACK_COMPLETE" ∨ t = "UPDATE_ROLLBACK_FAILED" := by
      simpa [failureStatuses] using hmem
    rcases hmem2 with rfl | rfl | rfl | rfl <;>
      rw [checkStack_first_terminal pre _ rest hpre (by decide)] <;> rfl

/-- Witness for C3: concrete scripts reaching each family. -/
theorem poll_first_terminal_classification_witness :
    (checkStackCreateUpdateStatus ["CREATE_COMPLETE"]).map PollResult.success
      = some true
    ∧ (checkStackCreateUpdateStatus
        ["CREATE_IN_PROGRESS", "UPDATE_ROLLBACK_FAILED"]).map PollResult.success
      = some false := by
  constructor
  · exact (poll_first_terminal_classification [] [] "CREATE_COMPLETE"
      (by decide)).1 (by decide)
  · exact (poll_first_terminal_classification ["CREATE_IN_PROGRESS"] []
      "UPDATE_ROLLBACK_FAILED" (by decide)).2 (by decide)

/-- Claim C4: a script whose first terminal status sits after n
non-terminal statuses yields exactly n+1 queries and n sleeps; a script
with no terminal status yields no result (the loop does not return within
the script). -/
theorem poll_query_sleep_count (pre rest l : List String) (t : String)
    (hpre : ∀ s, s ∈ pre → isStackComplete s = false)
    (ht : isStackComplete t = true)
    (hl : ∀ s, s ∈ l → isStackComplete s = false) :
    checkStackCreateUpdateStatus (pre ++ t :: rest)
      = some ⟨!jsIncludes t "ROLLBACK", pre.length + 1, pre.length⟩
    ∧ checkStackCreateUpdateStatus l = none :=
  ⟨checkStack_first_terminal pre t rest hpre ht, checkStack_no_terminal l hl⟩

/-- Witness for C4: the specification's scenario, two in-progress polls
then completion, gives three queries, two sleeps and `true`; a script of
only in-progress statuses gives no result. -/
theorem poll_query_sleep_count_witness :
    checkStackCreateUpdateStatus
        ["CREATE_IN_PROGRESS", "CREATE_IN_PROGRESS", "CREATE_COMPLETE"]
      = some ⟨true, 3, 2⟩
    ∧ checkStackCreateUpdateStatus ["CREATE_IN_PROGRESS"] = none := by
  have h := poll_query_sleep_count ["CREATE_IN_PROGRESS", "CREATE_IN_PROGRESS"]
    [] ["CREATE_IN_PROGRESS"] "CREATE_COMPLETE" (by decide) (by decide) (by decide)
  exact h

/-! ## Lemmas about the resolver -/

lemma getRegions_v2_ok (client : DynamoDBClient) (region : String)
    (newRegions : List String) (tableName : String) (tpl : List String)
    (resp : DescribeTableResp)
    (hok : client.describeTable tableName = Except.ok resp)
    (htpl : resp.replicas.getD [] = tpl) :
    getRegionsToCreateGlobalTablesIn client region newRegions tableName "v2"
      = Except.ok (regionDiff tpl newRegions) := by
  cases h : resp.replicas with
  | some rs =>
    have hrs : tpl = rs := by simpa [h] using htpl.symm
    subst hrs
    simp [getRegionsToCreateGlobalTablesIn, getRegionsAttempt, hok, h]
  | none =>
    have hnil : tpl = [] := by simpa [h] using htpl.symm
    subst hnil
    simp [getRegionsToCreateGlobalTablesIn, getRegionsAttempt, hok, h]

lemma getRegions_v1_ok (client : DynamoDBClient) (region : String)
    (newRegions : List String) (tableName : String) (version : String)
    (respG : DescribeGlobalTableResp)
    (hv : version ≠ "v2")
    (hok : client.describeGlobalTable tableName = Except.ok respG) :
    getRegionsToCreateGlobalTablesIn client region newRegions tableName version
      = Except.ok (regionDiff respG.replicationGroup (region :: newRegions)) := by
  simp [getRegionsToCreateGlobalTablesIn, getRegionsAttempt, hv, hok]

lemma getRegions_error_not_found (client : DynamoDBClient) (region : String)
    (newRegions : List String) (tableName : String) (version : String)
    (e : AwsErr)
    (he : e.code = "GlobalTableNotFoundException")
    (hfT : client.describeTable tableName = Except.error e)
    (hfG : client.describeGlobalTable tableName = Except.error e) :
    getRegionsToCreateGlobalTablesIn client region newRegions tableName version
      = Except.ok ⟨newRegions, false⟩ := by
  by_cases hv : version = "v2" <;>
    simp [getRegionsToCreateGlobalTablesIn, getRegionsAttempt, hv, hfT, hfG, he]

lemma getRegions_error_other (client : DynamoDBClient) (region : String)
    (newRegions : List String) (tableName : String) (version : String)
    (e : AwsErr)
    (he : e.code ≠ "GlobalTableNotFoundException")
    (hfT : client.describeTable tableName = Except.error e)
    (hfG : client.describeGlobalTable tableName = Except.error e) :
    getRegionsToCreateGlobalTablesIn client region newRegions tableName version
      = Except.error e := by
  by_cases hv : version = "v2" <;>
    simp [getRegionsToCreateGlobalTablesIn, getRegionsAttempt, hv, hfT, hfG, he]

lemma regionDiff_missing (topology candidates : List String) :
    (regionDiff topology candidates).missingRegions
      = candidates.filter (fun r => !topology.contains r) := by
  show (if (candidates.filter (fun r => !topology.contains r)).length = 0
      then (⟨[], false⟩ : RegionDiffResult)
      else ⟨candidates.filter (fun r => !topology.contains r), true⟩).missingRegions
    = candidates.filter (fun r => !topology.contains r)
  by_cases h : (candidates.filter (fun r => !topology.contains r)).length = 0
  · rw [if_pos h]
    exact (List.length_eq_zero.mp h).symm
  · rw [if_neg h]

lemma regionDiff_of_ne (topology candidates : List String)
    (h : candidates.filter (fun r => !topology.contains r) ≠ []) :
    regionDiff topology candidates
      = ⟨candidates.filter (fun r => !topology.contains r), true⟩ := by
  show (if (candidates.filter (fun r => !topology.contains r)).length = 0
      then (⟨[], false⟩ : RegionDiffResult)
      else ⟨candidates.filter (fun r => !topology.contains r), true⟩)
    = ⟨candidates.filter (fun r => !topology.contains r), true⟩
  rw [if_neg (fun hlen => h (List.length_eq_zero.mp hlen))]

lemma regionDiff_of_all_mem (topology candidates : List String)
    (h : ∀ r ∈ candidates, r ∈ topology) :
    regionDiff topology candidates = ⟨[], false⟩ := by
  have hfil : candidates.filter (fun r => !topology.contains r) = [] := by
    rw [List.filter_eq_nil_iff]
    intro a ha
    simpa using h a ha
  show (if (candidates.filter (fun r => !topology.contains r)).length = 0
      then (⟨[], false⟩ : RegionDiffResult)
      else ⟨candidates.filter (fun r => !topology.contains r), true⟩)
    = ⟨[], false⟩
  rw [if_pos (by rw [hfil]; rfl)]

lemma regionDiff_adding_iff (topology candidates : List String) :
    (regionDiff topology candidates).addingNewRegions = true
      ↔ (regionDiff topology candidates).missingRegions ≠ [] := by
  by_cases h : candidates.filter (fun r => !topology.contains r) = []
  · have hr : regionDiff topology candidates = ⟨[], false⟩ := by
      show (if (candidates.filter (fun r => !topology.contains r)).length = 0
          then (⟨[], false⟩ : RegionDiffResult)
          else ⟨candidates.filter (fun r => !topology.contains r), true⟩)
        = ⟨[], false⟩
      rw [if_pos (by rw [h]; rfl)]
    rw [hr]
    simp
  · rw [regionDiff_of_ne topology candidates h]
    simpa using h

/-! ## Concrete clients used as witnesses and counterexamples -/

/-- A client whose table exists with no replicas: `describeTable` reports
`Replicas: []` and `describeGlobalTable` reports an empty
`ReplicationGroup`. -/
def emptyTopologyClient : DynamoDBClient :=
  { describeTable := fun _ => Except.ok ⟨some []⟩
  , describeGlobalTable := fun _ => Except.ok ⟨[]⟩ }

/-- A client reporting the topology of the specification's scenario:
replicas in us-west-1 and us-west-2. -/
def partialTopologyClient : DynamoDBClient :=
  { describeTable := fun _ => Except.ok ⟨some ["us-west-1", "us-west-2"]⟩
  , describeGlobalTable := fun _ => Except.ok ⟨["us-west-1", "us-west-2"]⟩ }

/-- A client whose topology already covers the source region and both
target regions. -/
def fullTopologyClient : DynamoDBClient :=
  { describeTable := fun _ => Except.ok ⟨some ["us-east-1", "eu-west-1"]⟩
  , describeGlobalTable := fun _ =>
      Except.ok ⟨["us-west-1", "us-east-1", "eu-west-1"]⟩ }

/-- A client whose lookups throw `GlobalTableNotFoundException`. -/
def notFoundClient : DynamoDBClient :=
  { describeTable := fun _ =>
      Except.error ⟨"GlobalTableNotFoundException", "not found"⟩
  , describeGlobalTable := fun _ =>
      Except.error ⟨"GlobalTableNotFoundException", "not found"⟩ }

/-- A client whose lookups throw an unrelated provider error. -/
def throttledClient : DynamoDBClient :=
  { describeTable := fun _ =>
      Except.error ⟨"ThrottlingException", "rate exceeded"⟩
  , describeGlobalTable := fun _ =>
      Except.error ⟨"ThrottlingException", "rate exceeded"⟩ }

/-- Every successful outcome of the `try` block is a `regionDiff` over the
variant's candidate list. -/
lemma getRegionsAttempt_ok_shape (client : DynamoDBClient) (region : String)
    (newRegions : List String) (tableName : String) (version : String)
    (res : RegionDiffResult)
    (h : getRegionsAttempt client region newRegions tableName version
      = Except.ok res) :
    ∃ tpl cands,
      ((version = "v2" ∧ cands = newRegions)
        ∨ (version ≠ "v2" ∧ cands = region :: newRegions))
      ∧ res = regionDiff tpl cands := by
  unfold getRegionsAttempt at h
  by_cases hv : version = "v2"
  · rw [if_pos hv] at h
    cases hT : client.describeTable tableName with
    | error e =>
      rw [hT] at h
      exact Except.noConfusion h
    | ok resp =>
      rw [hT] at h
      refine ⟨(match resp.replicas with | some rs => rs | none => []),
        newRegions, Or.inl ⟨hv, rfl⟩, ?_⟩
      cases h
      rfl
  · rw [if_neg hv] at h
    cases hG : client.describeGlobalTable tableName with
    | error e =>
      rw [hG] at h
      exact Except.noConfusion h
    | ok resp =>
      rw [hG] at h
      refine ⟨resp.replicationGroup, region :: newRegions,
        Or.inr ⟨hv, rfl⟩, ?_⟩
      cases h
      rfl

/-- Claim C5: a lookup failure with code `GlobalTableNotFoundException` is
recovered locally: the resolver returns the full requested list unchanged
with `addingNewRegions = false` and propagates no error. -/
theorem resolver_not_found_recovery (client : DynamoDBClient)
    (region tableName version : String) (newRegions : List String)
    (e : AwsErr)
    (he : e.code = "GlobalTableNotFoundException")
    (hfT : client.describeTable tableName = Except.error e)
    (hfG : client.describeGlobalTable tableName = Except.error e) :
    getRegionsToCreateGlobalTablesIn client region newRegions tableName version
      = Except.ok ⟨newRegions, false⟩ :=
  getRegions_error_not_found client region newRegions tableName version e
    he hfT hfG

/-- Witness for C5: the not-found client at a concrete request. -/
theorem resolver_not_found_recovery_witness :
    getRegionsToCreateGlobalTablesIn notFoundClient "us-west-2"
        ["us-east-1", "eu-west-1"] "tbl" "v1"
      = Except.ok ⟨["us-east-1", "eu-west-1"], false⟩ :=
  resolver_not_found_recovery notFoundClient "us-west-2" "tbl" "v1"
    ["us-east-1", "eu-west-1"] ⟨"GlobalTableNotFoundException", "not found"⟩
    rfl rfl rfl

/-- Claim C6: a lookup failure with any other error code propagates that
same error unchanged to the caller. -/
theorem resolver_error_propagation (client : DynamoDBClient)
    (region tableName version : String) (newRegions : List String)
    (e : AwsErr)
    (he : e.code ≠ "GlobalTableNotFoundException")
    (hfT : client.describeTable tableName = Except.error e)
    (hfG : client.describeGlobalTable tableName = Except.error e) :
    getRegionsToCreateGlobalTablesIn client region newRegions tableName version
      = Except.error e :=
  getRegions_error_other client region newRegions tableName version e
    he hfT hfG

/-- Witness for C6: a throttling error at a concrete request propagates. -/
theorem resolver_error_propagation_witness :
    getRegionsToCreateGlobalTablesIn throttledClient "us-west-2"
        ["us-east-1"] "tbl" "v2"
      = Except.error ⟨"ThrottlingException", "rate exceeded"⟩ :=
  resolver_error_propagation throttledClient "us-west-2" "tbl" "v2"
    ["us-east-1"] ⟨"ThrottlingException", "rate exceeded"⟩
    (by decide) rfl rfl

/-- Counterexample to claim C1: the v2 lookup succeeds and reports an
empty topology (`Replicas: []`), yet the resolver returns
`addingNewRegions = true`, not `false`; the flag is also true although the
returned topology was empty. -/
theorem resolver_empty_topology_counterexample :
    emptyTopologyClient.describeTable "tbl" = Except.ok ⟨some []⟩
    ∧ getRegionsToCreateGlobalTablesIn emptyTopologyClient "us-west-2"
        ["us-east-1"] "tbl" "v2"
      ≠ Except.ok ⟨["us-east-1"], false⟩
    ∧ getRegionsToCreateGlobalTablesIn emptyTopologyClient "us-west-2"
        ["us-east-1"] "tbl" "v2"
      = Except.ok ⟨["us-east-1"], true⟩ := by
  refine ⟨rfl, ?_, ?_⟩ <;> decide

/-- Claim C1 (amended): on a successful v2 lookup reporting an empty
topology and a non-empty requested list, the resolver returns
`missingRegions = requestedRegions` (order preserved) with
`addingNewRegions = true`; in general, on the success path
`addingNewRegions` is true iff `missingRegions` is non-empty, regardless
of whether the topology was empty. -/
theorem resolver_empty_topology_adding_flag (client : DynamoDBClient)
    (region tableName : String) (newRegions : List String)
    (resp : DescribeTableResp) (topology candidates : List String)
    (hok : client.describeTable tableName = Except.ok resp)
    (hempty : resp.replicas.getD [] = [])
    (hne : newRegions ≠ []) :
    getRegionsToCreateGlobalTablesIn client region newRegions tableName "v2"
      = Except.ok ⟨newRegions, true⟩
    ∧ ((regionDiff topology candidates).addingNewRegions = true
        ↔ (regionDiff topology candidates).missingRegions ≠ []) := by
  constructor
  · rw [getRegions_v2_ok client region newRegions tableName [] resp hok hempty]
    have hfil : newRegions.filter (fun r => !([] : List String).contains r)
        = newRegions := by
      simp [List.contains]
    rw [regionDiff_of_ne [] newRegions (by rw [hfil]; exact hne), hfil]
  · exact regionDiff_adding_iff topology candidates

/-- Witness for the amended C1. -/
theorem resolver_empty_topology_adding_flag_witness :
    getRegionsToCreateGlobalTablesIn emptyTopologyClient "eu-west-1"
        ["ap-south-1"] "tbl" "v2"
      = Except.ok ⟨["ap-south-1"], true⟩
    ∧ ((regionDiff ["us-west-1"] ["us-east-1"]).addingNewRegions = true
        ↔ (regionDiff ["us-west-1"] ["us-east-1"]).missingRegions ≠ []) :=
  resolver_empty_topology_adding_flag emptyTopologyClient "eu-west-1" "tbl"
    ["ap-south-1"] ⟨some []⟩ ["us-west-1"] ["us-east-1"]
    rfl rfl (by decide)

/-- Counterexample to claim C2: for version v2, when the source region is
itself listed in `requestedRegions` and is not yet a replica, it does
appear in `missingRegions`. -/
theorem resolver_source_region_counterexample :
    getRegionsToCreateGlobalTablesIn emptyTopologyClient "us-west-1"
        ["us-west-1"] "tbl" "v2"
      = Except.ok ⟨["us-west-1"], true⟩ := by
  decide

/-- Claim C2 (amended): for version ≠ v2 the diff is
`{sourceRegion} followed by requestedRegions` filtered against the
replication-group region set; for version v2 the diff is only
`requestedRegions` filtered against the table's own replica set, so the
resolver never adds the source region by itself: it appears in the v2
`missingRegions` only when it is itself an element of `requestedRegions`. -/
theorem resolver_variant_diff (client : DynamoDBClient)
    (region tableName version : String) (newRegions : List String)
    (respT : DescribeTableResp) (respG : DescribeGlobalTableResp)
    (hokT : client.describeTable tableName = Except.ok respT)
    (hokG : client.describeGlobalTable tableName = Except.ok respG)
    (hv : version ≠ "v2")
    (hsrc : region ∉ newRegions) :
    (getRegionsToCreateGlobalTablesIn client region newRegions tableName
        version).map RegionDiffResult.missingRegions
      = Except.ok ((region :: newRegions).filter
          (fun r => !respG.replicationGroup.contains r))
    ∧ (getRegionsToCreateGlobalTablesIn client region newRegions tableName
        "v2").map RegionDiffResult.missingRegions
      = Except.ok (newRegions.filter
          (fun r => !(respT.replicas.getD []).contains r))
    ∧ region ∉ newRegions.filter
        (fun r => !(respT.replicas.getD []).contains r) := by
  refine ⟨?_, ?_, ?_⟩
  · rw [getRegions_v1_ok client region newRegions tableName version respG
      hv hokG]
    simp [Except.map, regionDiff_missing]
  · rw [getRegions_v2_ok client region newRegions tableName
      (respT.replicas.getD []) respT hokT rfl]
    simp [Except.map, regionDiff_missing]
  · intro hmem
    exact hsrc (List.mem_of_mem_filter hmem)

/-- Witness for the amended C2. -/
theorem resolver_variant_diff_witness :
    (getRegionsToCreateGlobalTablesIn partialTopologyClient "us-west-1"
        ["us-east-1"] "tbl" "v1").map RegionDiffResult.missingRegions
      = Except.ok ["us-east-1"]
    ∧ (getRegionsToCreateGlobalTablesIn partialTopologyClient "us-west-1"
        ["us-east-1"] "tbl" "v2").map RegionDiffResult.missingRegions
      = Except.ok ["us-east-1"]
    ∧ "us-west-1" ∉ (["us-east-1"] : List String).filter
        (fun r => !(["us-west-1", "us-west-2"] : List String).contains r) :=
  resolver_variant_diff partialTopologyClient "us-west-1" "tbl" "v1"
    ["us-east-1"] ⟨some ["us-west-1", "us-west-2"]⟩
    ⟨["us-west-1", "us-west-2"]⟩ rfl rfl (by decide) (by decide)

/-- Claim C7: when the requested list is partially contained in a
non-empty topology (for v1, with the source region already a member of the
replication group), the resolver returns exactly the uncontained requested
entries in input order, with `addingNewRegions = true`. -/
theorem resolver_partial_topology (client : DynamoDBClient)
    (region tableName version : String) (newRegions tpl : List String)
    (respT : DescribeTableResp) (respG : DescribeGlobalTableResp)
    (hokT : client.describeTable tableName = Except.ok respT)
    (hokG : client.describeGlobalTable tableName = Except.ok respG)
    (hT : respT.replicas = some tpl)
    (hv : version ≠ "v2")
    (_h2in : ∃ r, r ∈ newRegions ∧ r ∈ tpl)
    (h2out : ∃ r, r ∈ newRegions ∧ r ∉ tpl)
    (hsrc : region ∈ respG.replicationGroup)
    (_h1in : ∃ r, r ∈ newRegions ∧ r ∈ respG.replicationGroup)
    (h1out : ∃ r, r ∈ newRegions ∧ r ∉ respG.replicationGroup) :
    getRegionsToCreateGlobalTablesIn client region newRegions tableName "v2"
      = Except.ok ⟨newRegions.filter (fun r => !tpl.contains r), true⟩
    ∧ getRegionsToCreateGlobalTablesIn client region newRegions tableName
        version
      = Except.ok ⟨newRegions.filter
          (fun r => !respG.replicationGroup.contains r), true⟩ := by
  constructor
  · rw [getRegions_v2_ok client region newRegions tableName tpl respT hokT
      (by rw [hT]; rfl)]
    obtain ⟨r, hrn, hrt⟩ := h2out
    have hne : newRegions.filter (fun x => !tpl.contains x) ≠ [] := by
      intro hc
      have hmem : r ∈ newRegions.filter (fun x => !tpl.contains x) := by
        rw [List.mem_filter]
        exact ⟨hrn, by simpa using hrt⟩
      rw [hc] at hmem
      exact absurd hmem (List.not_mem_nil r)
    rw [regionDiff_of_ne tpl newRegions hne]
  · rw [getRegions_v1_ok client region newRegions tableName version respG
      hv hokG]
    obtain ⟨r, hrn, hrt⟩ := h1out
    have hne : (region :: newRegions).filter
        (fun x => !respG.replicationGroup.contains x) ≠ [] := by
      intro hc
      have hmem : r ∈ (region :: newRegions).filter
          (fun x => !respG.replicationGroup.contains x) := by
        rw [List.mem_filter]
        exact ⟨List.mem_cons_of_mem region hrn, by simpa using hrt⟩
      rw [hc] at hmem
      exact absurd hmem (List.not_mem_nil r)
    rw [regionDiff_of_ne respG.replicationGroup (region :: newRegions) hne]
    have hcons : (region :: newRegions).filter
          (fun x => !respG.replicationGroup.contains x)
        = newRegions.filter (fun x => !respG.replicationGroup.contains x) := by
      rw [List.filter_cons]
      simp [hsrc]
    rw [hcons]

/-- Witness for C7: the specification's scenario,
requested `["us-west-1","us-east-1"]` against topology
`["us-west-1","us-west-2"]`. -/
theorem resolver_partial_topology_witness :
    getRegionsToCreateGlobalTablesIn partialTopologyClient "us-west-1"
        ["us-west-1", "us-east-1"] "tbl" "v2"
      = Except.ok ⟨["us-east-1"], true⟩
    ∧ getRegionsToCreateGlobalTablesIn partialTopologyClient "us-west-1"
        ["us-west-1", "us-east-1"] "tbl" "v1"
      = Except.ok ⟨["us-east-1"], true⟩ :=
  resolver_partial_topology partialTopologyClient "us-west-1" "tbl" "v1"
    ["us-west-1", "us-east-1"] ["us-west-1", "us-west-2"]
    ⟨some ["us-west-1", "us-west-2"]⟩ ⟨["us-west-1", "us-west-2"]⟩
    rfl rfl rfl (by decide)
    ⟨"us-west-1", by decide⟩ ⟨"us-east-1", by decide⟩
    (by decide) ⟨"us-west-1", by decide⟩ ⟨"us-east-1", by decide⟩

/-- Claim C8: when every requested region is already contained in a
non-empty topology, the resolver returns `{[], false}` and
`createGlobalTable` issues no further provider call for the table. -/
theorem resolver_full_topology_noop (client : DynamoDBClient)
    (region tableName version : String) (newRegions tpl : List String)
    (respT : DescribeTableResp) (respG : DescribeGlobalTableResp)
    (createStack : Bool)
    (hokT : client.describeTable tableName = Except.ok respT)
    (hokG : client.describeGlobalTable tableName = Except.ok respG)
    (hT : respT.replicas = some tpl)
    (_htne : tpl ≠ [])
    (_hgne : respG.replicationGroup ≠ [])
    (hv : version ≠ "v2")
    (hall2 : ∀ r ∈ newRegions, r ∈ tpl)
    (hall1 : ∀ r ∈ region :: newRegions, r ∈ respG.replicationGroup) :
    getRegionsToCreateGlobalTablesIn client region newRegions tableName "v2"
      = Except.ok ⟨[], false⟩
    ∧ getRegionsToCreateGlobalTablesIn client region newRegions tableName
        version
      = Except.ok ⟨[], false⟩
    ∧ createGlobalTable client region tableName newRegions "v2" createStack
      = Except.ok (⟨[], false⟩, [])
    ∧ createGlobalTable client region tableName newRegions version createStack
      = Except.ok (⟨[], false⟩, []) := by
  have h2 : getRegionsToCreateGlobalTablesIn client region newRegions
      tableName "v2" = Except.ok ⟨[], false⟩ := by
    rw [getRegions_v2_ok client region newRegions tableName tpl respT hokT
      (by rw [hT]; rfl)]
    rw [regionDiff_of_all_mem tpl newRegions hall2]
  have h1 : getRegionsToCreateGlobalTablesIn client region newRegions
      tableName version = Except.ok ⟨[], false⟩ := by
    rw [getRegions_v1_ok client region newRegions tableName version respG
      hv hokG]
    rw [regionDiff_of_all_mem respG.replicationGroup (region :: newRegions)
      hall1]
  refine ⟨h2, h1, ?_, ?_⟩
  · unfold createGlobalTable
    rw [h2]
    rfl
  · unfold createGlobalTable
    rw [h1]
    rfl

/-- Witness for C8: a topology covering source and both targets. -/
theorem resolver_full_topology_noop_witness :
    getRegionsToCreateGlobalTablesIn fullTopologyClient "us-west-1"
        ["us-east-1", "eu-west-1"] "tbl" "v2"
      = Except.ok ⟨[], false⟩
    ∧ getRegionsToCreateGlobalTablesIn fullTopologyClient "us-west-1"
        ["us-east-1", "eu-west-1"] "tbl" "v1"
      = Except.ok ⟨[], false⟩
    ∧ createGlobalTable fullTopologyClient "us-west-1" "tbl"
        ["us-east-1", "eu-west-1"] "v2" false
      = Except.ok (⟨[], false⟩, [])
    ∧ createGlobalTable fullTopologyClient "us-west-1" "tbl"
        ["us-east-1", "eu-west-1"] "v1" false
      = Except.ok (⟨[], false⟩, []) :=
  resolver_full_topology_noop fullTopologyClient "us-west-1" "tbl" "v1"
    ["us-east-1", "eu-west-1"] ["us-east-1", "eu-west-1"]
    ⟨some ["us-east-1", "eu-west-1"]⟩
    ⟨["us-west-1", "us-east-1", "eu-west-1"]⟩ false
    rfl rfl rfl (by decide) (by decide) (by decide) (by decide) (by decide)

/-- Counterexample to claim C9: a requested list with a duplicate entry
absent from the topology yields a `missingRegions` with that duplicate:
`Array.prototype.filter` keeps every occurrence, it removes none. -/
theorem resolver_duplicates_counterexample :
    getRegionsToCreateGlobalTablesIn emptyTopologyClient "us-west-2"
        ["us-east-1", "us-east-1"] "tbl" "v2"
      = Except.ok ⟨["us-east-1", "us-east-1"], true⟩
    ∧ ¬ (["us-east-1", "us-east-1"] : List String).Nodup := by
  exact ⟨by decide, by decide⟩

/-- Claim C9 (amended): for every requested list, `missingRegions`
preserves input insertion order — it is always a sublist of
`sourceRegion :: requestedRegions`, and for v2 of `requestedRegions`
alone — but duplicate entries of the input are kept, not removed. -/
theorem resolver_order_sublist (client : DynamoDBClient)
    (region tableName version : String) (newRegions : List String)
    (res : RegionDiffResult)
    (hok : getRegionsToCreateGlobalTablesIn client region newRegions
        tableName version = Except.ok res) :
    List.Sublist res.missingRegions (region :: newRegions)
    ∧ (version = "v2" → List.Sublist res.missingRegions newRegions) := by
  cases hA : getRegionsAttempt client region newRegions tableName version with
  | ok r =>
    have heq : getRegionsToCreateGlobalTablesIn client region newRegions
        tableName version = Except.ok r := by
      unfold getRegionsToCreateGlobalTablesIn
      rw [hA]
    rw [heq] at hok
    cases hok
    obtain ⟨tpl, cands, hc, hr⟩ :=
      getRegionsAttempt_ok_shape client region newRegions tableName version
        res hA
    subst hr
    rw [regionDiff_missing]
    constructor
    · rcases hc with ⟨_, rfl⟩ | ⟨_, rfl⟩
      · exact (List.filter_sublist _).trans (List.sublist_cons_self _ _)
      · exact List.filter_sublist _
    · intro hv
      rcases hc with ⟨_, rfl⟩ | ⟨hnv, rfl⟩
      · exact List.filter_sublist _
      · exact absurd hv hnv
  | error e =>
    have heq : getRegionsToCreateGlobalTablesIn client region newRegions
        tableName version
        = if e.code ≠ "GlobalTableNotFoundException" then Except.error e
          else Except.ok ⟨newRegions, false⟩ := by
      unfold getRegionsToCreateGlobalTablesIn
      rw [hA]
    rw [heq] at hok
    by_cases hcode : e.code = "GlobalTableNotFoundException"
    · rw [if_neg (not_not_intro hcode)] at hok
      cases hok
      exact ⟨List.sublist_cons_self region newRegions,
        fun _ => List.Sublist.refl newRegions⟩
    · rw [if_pos hcode] at hok
      exact Except.noConfusion hok

/-- Witness for the amended C9: the duplicated request stays a duplicated,
order-preserving sublist. -/
theorem resolver_order_sublist_witness :
    List.Sublist
        ((⟨["us-east-1", "us-east-1"], true⟩ : RegionDiffResult).missingRegions)
        ("us-west-2" :: ["us-east-1", "us-east-1"])
    ∧ ("v2" = "v2" → List.Sublist
        ((⟨["us-east-1", "us-east-1"], true⟩ : RegionDiffResult).missingRegions)
        ["us-east-1", "us-east-1"]) :=
  resolver_order_sublist emptyTopologyClient "us-west-2" "tbl" "v2"
    ["us-east-1", "us-east-1"] ⟨["us-east-1", "us-east-1"], true⟩ (by decide)

/-- A body run can fail: with a throttled client and a discovered table,
the body of the entry point propagates the provider error internally. -/
lemma body_can_error :
    createGlobalDynamodbTableBody
      { options := some ⟨true, ["us-east-1"], "v2", some false⟩
      , region := "us-west-2"
      , dynamodb := throttledClient
      , tableNamesFromStack := Except.ok ["tbl"]
      , createUpdateCfnStack := fun _ => Except.ok () }
      = Except.error ⟨"ThrottlingException", "rate exceeded"⟩ := by
  decide

/-- Claim C10: the top-level entry point never rejects — whatever the
collaborators return or throw, every inner error is caught by the
top-level handler and the call completes normally. -/
theorem entry_point_never_rejects (env : ServerlessEnv) :
    createGlobalDynamodbTable env = Except.ok () := by
  unfold createGlobalDynamodbTable
  cases createGlobalDynamodbTableBody env <;> rfl
